import Mathlib

/-!
Shallow embedding of the `attempt-ts` library (src/attempt.ts and
src/index.ts): an error-handling wrapper that runs a fallible operation
and returns a tagged outcome object instead of raising, with pluggable
error normalization, a logger/reporter pipeline, an internal-vs-client
failure split, and a retry wrapper delegating to the external `p-retry`
backoff collaborator.

Modelling conventions:
* JavaScript runtime values are `JSVal`; an error-like value (`instanceof
  Error`) is `JSVal.vError msg`; plain objects are ordered field lists.
* A throwing computation is `Except JSVal α`: `Except.error e` is a raised
  (or rejected) JavaScript value `e`.
* A zero-argument operation passed to `try` is described by its observable
  behavior `FnBehavior`: it returns a plain value, returns a native
  Promise that later settles, or throws synchronously.  A non-Promise
  thenable is a plain value (`JSVal.vThenable`), mirroring the
  `result instanceof Promise` check in the source.
* Side effects of the failure pipeline (normalizer, logger, reporter
  invocations) are recorded in an ordered `Event` trace.
* JSON serialization (`JSON.stringify` then `JSON.parse`) is modelled by
  `serialize : JSVal → Option JVal`: `none` means the value is dropped
  from its enclosing object (JavaScript `undefined` and functions), an
  `Error` serializes as the empty object (its own fields are not
  enumerable).
-/

namespace AttemptTS

/-- A JavaScript runtime value, as far as the library inspects one.
`vError msg` is a value that is `instanceof Error` with message `msg`;
`vThenable rejects v` is a non-Promise thenable that later settles
(rejecting with `v` when `rejects` is true); `vFun` is a function value;
`vObj` is a plain object as an ordered field list. -/
inductive JSVal where
  | vError (msg : String)
  | vStr (s : String)
  | vNum (n : Int)
  | vBool (b : Bool)
  | vNull
  | vUndefined
  | vFun
  | vThenable (rejects : Bool) (v : JSVal)
  | vObj (fields : List (String × JSVal))


/-- A JavaScript object: an ordered list of (key, value) fields. -/
abbrev JSObj := List (String × JSVal)

/-- JavaScript `String(v)` coercion for the values of `JSVal`. -/
def jsToString : JSVal → String
  | .vError m => "Error: " ++ m
  | .vStr s => s
  | .vNum n => toString n
  | .vBool b => if b then "true" else "false"
  | .vNull => "null"
  | .vUndefined => "undefined"
  | .vFun => "function"
  | .vThenable _ _ => "[object Object]"
  | .vObj _ => "[object Object]"

/-- JavaScript `v instanceof Error` for the values of `JSVal`. -/
def instanceofError : JSVal → Bool
  | .vError _ => true
  | _ => false

/-- The key list of an object, in order. -/
def keysOf {α : Type} : List (String × α) → List String
  | [] => []
  | (k, _) :: rest => k :: keysOf rest

/-- Field lookup in an object (first match wins). -/
def lookupKey {α : Type} (k : String) : List (String × α) → Option α
  | [] => none
  | (k2, v) :: rest => if k2 = k then some v else lookupKey k rest

/-- A Normalized Error: the value the caller-supplied normalizer returns.
`val` is its runtime representation (what is stored in an InternalFailure
payload); `toClient` describes its `toClient` member: `none` means there
is no callable `toClient` (so calling it raises a TypeError),
`some (Except.error e)` means calling it throws `e`, and
`some (Except.ok c)` means calling it returns the client projection `c`. -/
structure Normalized where
  val : JSVal
  toClient : Option (Except JSVal JSVal)

/-- The two accepted logger shapes: a plain function, or an object with an
`error` method.  Both are invoked with the raw caught value. -/
inductive LoggerShape where
  | funcForm
  | objForm


/-- The dependencies captured by `createAttempt`.  The caller-supplied
`errors` classifier function is identified by an opaque tag (`Nat`); the
normalizer receives `some t` exactly when it was called with the auxiliary
options object `\x7b when: errors \x7d` for the classifier tagged `t`, and
`none` when it was called with `undefined` options. -/
structure Deps where
  normalizeError : JSVal → Option Nat → Normalized
  logger : Option LoggerShape
  reporter : Bool

/-- Options accepted by `Attempt.try` (`report`, `client`, `errors`).
`none` models an absent option; the `errors` classifier is an opaque tag. -/
structure TryOptions where
  report : Option Bool := none
  client : Option Bool := none
  errors : Option Nat := none

/-- Options accepted by `Attempt.retry`: the `try` options plus `tries`.
The `retry` configuration bag forwarded verbatim to the backoff
collaborator carries no retry count and is not modelled. -/
structure RetryOptions extends TryOptions where
  tries : Option Nat := none

/-- One observable side effect of the failure-handling procedure, in
invocation order: the normalizer called with the raw caught value and its
auxiliary options tag, the logger called with the raw caught value, the
reporter called with the raw caught value. -/
inductive Event where
  | normCall (raw : JSVal) (whenTag : Option Nat)
  | logCall (raw : JSVal)
  | reportCall (raw : JSVal)


namespace Attempt

/-- `Attempt.ok(data)`: the Success outcome object, with its three keys in
source order. -/
def ok (data : JSVal) : JSObj :=
  [("ok", JSVal.vBool true), ("error", JSVal.vUndefined), ("data", data)]

/-- `Attempt.error(errorInfo)`: the failure outcome object wrapping the
given failure payload. -/
def error (errorInfo : JSObj) : JSObj :=
  [("ok", JSVal.vBool false), ("error", JSVal.vObj errorInfo), ("data", JSVal.vUndefined)]

/-- `Attempt.handleError(error, options)`: the shared failure-handling
procedure.  Returns the outcome object it builds (or, as `Except.error`,
the value it itself raises — calling a missing or throwing `toClient`),
paired with the ordered trace of normalizer/logger/reporter invocations. -/
def handleError (deps : Deps) (error : JSVal) (options : TryOptions) :
    Except JSVal JSObj × List Event :=
  let shouldReport := options.report.getD true
  let client := options.client.getD false
  let normalized := deps.normalizeError error options.errors
  let events : List Event :=
    Event.normCall error options.errors ::
      (if shouldReport then
        (match deps.logger with
          | some _ => [Event.logCall error]
          | none => []) ++
        (if deps.reporter then [Event.reportCall error] else [])
      else [])
  if client then
    match normalized.toClient with
    | none => (Except.error (JSVal.vError "normalized.toClient is not a function"), events)
    | some (Except.error e) => (Except.error e, events)
    | some (Except.ok clientError) =>
        (Except.ok (Attempt.error [("client", clientError)]), events)
  else
    let originalError := if instanceofError error then error else JSVal.vError (jsToString error)
    (Except.ok (Attempt.error [("error", originalError), ("normalized", normalized.val)]), events)

/-- The observable behavior of a zero-argument operation passed to
`Attempt.try`: it returns a plain value, returns a native Promise that
settles as described, or throws synchronously.  A non-Promise thenable is
a plain returned value (`ret (JSVal.vThenable ..)`) because the source
branches on `result instanceof Promise`. -/
inductive FnBehavior where
  | ret (v : JSVal)
  | retPromise (settled : Except JSVal JSVal)
  | thr (e : JSVal)


/-- What `Attempt.try` hands back: `sync r` is a value returned directly
(`Except.error` meaning `try` itself raised), `async r` is a Promise
(`Except.error` meaning the returned Promise rejects). -/
inductive TryResult where
  | sync (r : Except JSVal JSObj)
  | async (r : Except JSVal JSObj)


/-- `Attempt.try(fn, options)`: run the operation once, wrap a plain
return in a Success outcome synchronously, chain `then`/`catch` on a
returned Promise, and route a synchronous throw or an asynchronous
rejection through `handleError`.  Paired with the event trace. -/
def tryRun (deps : Deps) (fn : FnBehavior) (options : TryOptions) :
    TryResult × List Event :=
  match fn with
  | .ret v => (TryResult.sync (Except.ok (Attempt.ok v)), [])
  | .retPromise (Except.ok d) => (TryResult.async (Except.ok (Attempt.ok d)), [])
  | .retPromise (Except.error e) =>
      let he := handleError deps e options
      (TryResult.async he.1, he.2)
  | .thr e =>
      let he := handleError deps e options
      (TryResult.sync he.1, he.2)

/-- Modelled from the spec: the external retry/backoff collaborator
(`p-retry`, not part of this repository).  Per the spec's retry
collaborator contract it invokes the operation up to `retriesLeft + 1`
further times, resolves with the first success, and rejects with the
final failure after exhaustion.  `idx` counts invocations already made;
returns the settled result and the total invocation count. -/
def pRetryGo (fn : Nat → Except JSVal JSVal) : Nat → Nat → Except JSVal JSVal × Nat
  | 0, idx => (fn idx, idx + 1)
  | n + 1, idx =>
    match fn idx with
    | Except.ok v => (Except.ok v, idx + 1)
    | Except.error _ => pRetryGo fn n (idx + 1)

/-- Modelled from the spec: `pRetry(fn, \x7b retries \x7d)` — run the
operation with at most `retries` retries after the initial attempt. -/
def pRetry (fn : Nat → Except JSVal JSVal) (retries : Nat) : Except JSVal JSVal × Nat :=
  pRetryGo fn retries 0

/-- `Attempt.retry(fn, options)`: destructure `tries` (default 3) and the
forwarded `retry` bag out of the options, run the operation through the
collaborator, wrap eventual success in a Success outcome and route the
final failure through `handleError` with the remaining options.  Returns
the settled Promise value (`Except.error` meaning the Promise rejects),
the invocation count, and the event trace. -/
def retry (deps : Deps) (fn : Nat → Except JSVal JSVal) (options : RetryOptions) :
    Except JSVal JSObj × (Nat × List Event) :=
  let retries := options.tries.getD 3
  match pRetry fn retries with
  | (Except.ok v, n) => (Except.ok (Attempt.ok v), (n, []))
  | (Except.error e, n) =>
      let he := handleError deps e options.toTryOptions
      (he.1, (n, he.2))

end Attempt

/-- A JSON value: the structured interchange format an outcome is
serialized to (`JSON.stringify`) and parsed back from. -/
inductive JVal where
  | jNull
  | jBool (b : Bool)
  | jNum (n : Int)
  | jStr (s : String)
  | jObj (fields : List (String × JVal))


mutual

/-- JavaScript JSON serialization of a value: `undefined` and functions
produce no JSON value (the enclosing object drops the key), an `Error`
serializes as the empty object (its fields are not own-enumerable), a
thenable is a plain object whose only member is its `then` function. -/
def serialize : JSVal → Option JVal
  | .vError _ => some (JVal.jObj [])
  | .vStr s => some (JVal.jStr s)
  | .vNum n => some (JVal.jNum n)
  | .vBool b => some (JVal.jBool b)
  | .vNull => some JVal.jNull
  | .vUndefined => none
  | .vFun => none
  | .vThenable _ _ => some (JVal.jObj [])
  | .vObj fields => some (JVal.jObj (serializeFields fields))

/-- JSON serialization of an object's field list: fields whose value does
not serialize are dropped. -/
def serializeFields : List (String × JSVal) → List (String × JVal)
  | [] => []
  | (k, v) :: rest =>
    match serialize v with
    | none => serializeFields rest
    | some j => (k, j) :: serializeFields rest

end

/-- The default normalizer shipped in src/index.ts: message from
`error.message` when the caught value is an Error, else `String(error)`;
fixed code and user message; a `toClient` member projecting exactly the
three safe fields. -/
def defaultNormalizer (error : JSVal) : Normalized :=
  let message := match error with
    | .vError m => m
    | v => jsToString v
  { val := JSVal.vObj
      [("message", JSVal.vStr message),
       ("code", JSVal.vStr "UNKNOWN_ERROR"),
       ("userMessage", JSVal.vStr "An error occurred"),
       ("toClient", JSVal.vFun)],
    toClient := some (Except.ok (JSVal.vObj
      [("message", JSVal.vStr message),
       ("code", JSVal.vStr "UNKNOWN_ERROR"),
       ("userMessage", JSVal.vStr "An error occurred")])) }

/-- The `attempt` instance of src/index.ts: the default normalizer, the
`console` object as logger, no reporter. -/
def defaultDeps : Deps :=
  { normalizeError := fun e _ => defaultNormalizer e,
    logger := some LoggerShape.objForm,
    reporter := false }

/-- Whether `Attempt.try` handed back a deferred handle (a Promise)
rather than a plain value. -/
def Attempt.TryResult.isAsync : Attempt.TryResult → Bool
  | .sync _ => false
  | .async _ => true

/-- Whether `Attempt.try` neither raised synchronously nor handed back a
rejecting Promise: a plain value was returned, or the returned Promise
resolves. -/
def Attempt.TryResult.settled : Attempt.TryResult → Bool
  | .sync (Except.ok _) => true
  | .async (Except.ok _) => true
  | .sync (Except.error _) => false
  | .async (Except.error _) => false

/-- Whether the operation's return value is `instanceof Promise`: the
run-time test `Attempt.try` branches on.  A throwing operation has no
return value, and a non-Promise thenable is not an instance of Promise. -/
def Attempt.FnBehavior.isPromiseReturn : Attempt.FnBehavior → Bool
  | .retPromise _ => true
  | .ret _ => false
  | .thr _ => false

/-- The synchronous operation observationally matching a settled Promise:
resolving with `v` corresponds to returning `v`, rejecting with `e` to
throwing `e`. -/
def syncOf : Except JSVal JSVal → Attempt.FnBehavior
  | Except.ok v => Attempt.FnBehavior.ret v
  | Except.error e => Attempt.FnBehavior.thr e

/-- Whether a settled Promise of an outcome resolved (rather than
rejected). -/
def resolves : Except JSVal JSObj → Bool
  | Except.ok _ => true
  | Except.error _ => false

/-- Structural well-formedness of an outcome object: exactly the three
keys `ok`, `error`, `data` in order; on success the `error` field is
present and `undefined`; on failure the `data` field is present and
`undefined`. -/
def outcomeWF : JSObj → Bool
  | [("ok", JSVal.vBool true), ("error", JSVal.vUndefined), ("data", _)] => true
  | [("ok", JSVal.vBool false), ("error", _), ("data", JSVal.vUndefined)] => true
  | _ => false

/-- `outcomeWF` lifted over a possibly-raising computation: a raised value
is vacuously fine (no outcome was produced). -/
def exceptWF : Except JSVal JSObj → Bool
  | Except.ok obj => outcomeWF obj
  | Except.error _ => true

/-- `outcomeWF` over whatever `Attempt.try` hands back. -/
def tryResultWF : Attempt.TryResult → Bool
  | .sync r => exceptWF r
  | .async r => exceptWF r

/-- Whether a settled computation produced a Success outcome (discriminant
`ok` equal to `true`). -/
def isSuccessOutcome : Except JSVal JSObj → Bool
  | Except.ok obj =>
    match lookupKey "ok" obj with
    | some (JSVal.vBool true) => true
    | _ => false
  | Except.error _ => false

/-- The normalizer always returns a value whose `toClient` member is
callable and returns without raising. -/
def toClientTotal (deps : Deps) : Prop :=
  ∀ raw t, ∃ c, (deps.normalizeError raw t).toClient = some (Except.ok c)

/-- An operation that fails (raises or rejects) with `e` on every
invocation. -/
def alwaysFail (e : JSVal) : Nat → Except JSVal JSVal :=
  fun _ => Except.error e

/-- An operation that fails with `e` on its first `k` invocations and then
succeeds with `v`. -/
def failsThen (k : Nat) (e v : JSVal) : Nat → Except JSVal JSVal :=
  fun i => if i < k then Except.error e else Except.ok v

/-- The operation fails on every invocation. -/
def allAttemptsFail (fn : Nat → Except JSVal JSVal) : Prop :=
  ∀ i, ∃ e, fn i = Except.error e

/-- Dependencies whose normalizer never raises but returns a value with no
callable `toClient` member, and whose logger and reporter are absent (so
nothing caller-supplied can raise). -/
def noClientDeps : Deps :=
  { normalizeError := fun _ _ => { val := JSVal.vNull, toClient := none },
    logger := none,
    reporter := false }

/-- Dependencies whose normalizer never raises but returns a value whose
`toClient` member throws when called. -/
def throwingClientDeps : Deps :=
  { normalizeError := fun _ _ =>
      { val := JSVal.vNull,
        toClient := some (Except.error (JSVal.vError "toClient boom")) },
    logger := none,
    reporter := false }

/-- Dependencies with the default normalizer, a function-form logger and a
reporter: used to exercise the full reporting pipeline. -/
def fullDeps : Deps :=
  { normalizeError := fun e _ => defaultNormalizer e,
    logger := some LoggerShape.funcForm,
    reporter := true }

/-- The event trace the failure-handling procedure produces for caught
value `e`: the normalizer call (with the `when` tag exactly when `errors`
was supplied), then — only when `report` is not `false` — the logger call
(if a logger was supplied) followed by the reporter call (if a reporter
was supplied). -/
def pipelineEvents (deps : Deps) (e : JSVal) (options : TryOptions) : List Event :=
  Event.normCall e options.errors ::
    (if options.report.getD true then
      (match deps.logger with
        | some _ => [Event.logCall e]
        | none => []) ++
      (if deps.reporter then [Event.reportCall e] else [])
    else [])

section Lemmas

/-- An `instanceof Error` value is a `vError`. -/
theorem instanceofError_inv {e : JSVal} (h : instanceofError e = true) :
    ∃ m, e = JSVal.vError m := by
  cases e <;> first
    | exact ⟨_, rfl⟩
    | simp [instanceofError] at h

/-- In non-client mode, `handleError` returns the InternalFailure outcome
(raw cause coerced to an Error if needed, plus the normalized error) and
the pipeline trace. -/
theorem handleError_nonclient (deps : Deps) (e : JSVal) (opts : TryOptions)
    (h : opts.client.getD false = false) :
    Attempt.handleError deps e opts =
      (Except.ok (Attempt.error
          [("error", if instanceofError e then e else JSVal.vError (jsToString e)),
           ("normalized", (deps.normalizeError e opts.errors).val)]),
       pipelineEvents deps e opts) := by
  unfold Attempt.handleError pipelineEvents
  simp [h]

/-- In client mode with a returning `toClient`, `handleError` returns the
ClientFailure outcome wrapping exactly the projection, and the pipeline
trace. -/
theorem handleError_client (deps : Deps) (e : JSVal) (opts : TryOptions) (c : JSVal)
    (h : opts.client.getD false = true)
    (htc : (deps.normalizeError e opts.errors).toClient = some (Except.ok c)) :
    Attempt.handleError deps e opts =
      (Except.ok (Attempt.error [("client", c)]), pipelineEvents deps e opts) := by
  unfold Attempt.handleError pipelineEvents
  simp [h, htc]

/-- The trace of `handleError` is always the pipeline trace. -/
theorem handleError_events (deps : Deps) (e : JSVal) (opts : TryOptions) :
    (Attempt.handleError deps e opts).2 = pipelineEvents deps e opts := by
  unfold Attempt.handleError pipelineEvents
  cases hc : opts.client.getD false with
  | false => simp [hc]
  | true =>
    cases htc : (deps.normalizeError e opts.errors).toClient with
    | none => simp [hc, htc]
    | some r => cases r <;> simp [hc, htc]

/-- Whatever outcome object `handleError` returns is well-formed. -/
theorem handleError_wf (deps : Deps) (e : JSVal) (opts : TryOptions) :
    exceptWF (Attempt.handleError deps e opts).1 = true := by
  unfold Attempt.handleError
  cases hc : opts.client.getD false with
  | false => simp [hc, exceptWF, Attempt.error, outcomeWF]
  | true =>
    cases htc : (deps.normalizeError e opts.errors).toClient with
    | none => simp [hc, htc, exceptWF]
    | some r =>
      cases r <;> simp [hc, htc, exceptWF, Attempt.error, outcomeWF]

/-- `handleError` never returns a Success outcome. -/
theorem handleError_not_success (deps : Deps) (e : JSVal) (opts : TryOptions) :
    isSuccessOutcome (Attempt.handleError deps e opts).1 = false := by
  unfold Attempt.handleError
  cases hc : opts.client.getD false with
  | false => simp [hc, isSuccessOutcome, Attempt.error, lookupKey]
  | true =>
    cases htc : (deps.normalizeError e opts.errors).toClient with
    | none => simp [hc, htc, isSuccessOutcome]
    | some r =>
      cases r <;> simp [hc, htc, isSuccessOutcome, Attempt.error, lookupKey]

/-- If `toClient` is total when needed, `handleError` itself never
raises. -/
theorem handleError_ok (deps : Deps) (e : JSVal) (opts : TryOptions)
    (h : opts.client.getD false = true →
      ∃ c, (deps.normalizeError e opts.errors).toClient = some (Except.ok c)) :
    ∃ obj, (Attempt.handleError deps e opts).1 = Except.ok obj := by
  cases hc : opts.client.getD false with
  | false => exact ⟨_, by rw [handleError_nonclient deps e opts hc]⟩
  | true =>
    obtain ⟨c, htc⟩ := h hc
    exact ⟨_, by rw [handleError_client deps e opts c hc htc]⟩

/-- The collaborator performs at most `retriesLeft + 1` further
invocations. -/
theorem pRetryGo_count_le (fn : Nat → Except JSVal JSVal) :
    ∀ (r idx : Nat), (Attempt.pRetryGo fn r idx).2 ≤ idx + r + 1 := by
  intro r
  induction r with
  | zero => intro idx; simp [Attempt.pRetryGo]
  | succ n ih =>
    intro idx
    unfold Attempt.pRetryGo
    cases h : fn idx with
    | ok v => simp
    | error e =>
      dsimp only
      have hle := ih (idx + 1)
      omega

/-- If every invocation fails, the collaborator makes exactly
`retriesLeft + 1` further invocations and surfaces a failure. -/
theorem pRetryGo_allfail (fn : Nat → Except JSVal JSVal) (h : allAttemptsFail fn) :
    ∀ (r idx : Nat), (Attempt.pRetryGo fn r idx).2 = idx + r + 1 ∧
      ∃ e, (Attempt.pRetryGo fn r idx).1 = Except.error e := by
  intro r
  induction r with
  | zero =>
    intro idx
    obtain ⟨e, he⟩ := h idx
    exact ⟨by simp [Attempt.pRetryGo], ⟨e, by simp [Attempt.pRetryGo, he]⟩⟩
  | succ n ih =>
    intro idx
    obtain ⟨e, he⟩ := h idx
    unfold Attempt.pRetryGo
    rw [he]
    dsimp only
    obtain ⟨h1, h2⟩ := ih (idx + 1)
    exact ⟨by omega, h2⟩

/-- `retry`'s invocation count is the collaborator's. -/
theorem retry_count (deps : Deps) (fn : Nat → Except JSVal JSVal) (ropts : RetryOptions) :
    (Attempt.retry deps fn ropts).2.1 = (Attempt.pRetry fn (ropts.tries.getD 3)).2 := by
  unfold Attempt.retry
  cases hp : Attempt.pRetry fn (ropts.tries.getD 3) with
  | mk r n => cases r <;> simp [hp]

/-- When the collaborator succeeds, `retry` resolves with a Success
outcome and no pipeline events. -/
theorem retry_ok (deps : Deps) (fn : Nat → Except JSVal JSVal) (ropts : RetryOptions)
    (v : JSVal) (n : Nat)
    (hp : Attempt.pRetry fn (ropts.tries.getD 3) = (Except.ok v, n)) :
    Attempt.retry deps fn ropts = (Except.ok (Attempt.ok v), (n, [])) := by
  unfold Attempt.retry
  simp [hp]

/-- When the collaborator exhausts retries, `retry` routes the final
failure through `handleError`. -/
theorem retry_fail (deps : Deps) (fn : Nat → Except JSVal JSVal) (ropts : RetryOptions)
    (e : JSVal) (n : Nat)
    (hp : Attempt.pRetry fn (ropts.tries.getD 3) = (Except.error e, n)) :
    Attempt.retry deps fn ropts =
      ((Attempt.handleError deps e ropts.toTryOptions).1,
       (n, (Attempt.handleError deps e ropts.toTryOptions).2)) := by
  unfold Attempt.retry
  simp [hp]

/-- The collaborator makes at most `r + 1` invocations in total. -/
theorem pRetry_count_le (fn : Nat → Except JSVal JSVal) (r : Nat) :
    (Attempt.pRetry fn r).2 ≤ r + 1 := by
  have h := pRetryGo_count_le fn r 0
  simpa using h

/-- If every invocation fails, the collaborator makes exactly `r + 1`
invocations and rejects. -/
theorem pRetry_allfail (fn : Nat → Except JSVal JSVal) (h : allAttemptsFail fn) (r : Nat) :
    ∃ e, Attempt.pRetry fn r = (Except.error e, r + 1) := by
  obtain ⟨hn, e, he⟩ := pRetryGo_allfail fn h r 0
  refine ⟨e, ?_⟩
  have h1 : (Attempt.pRetry fn r).1 = Except.error e := he
  have h2 : (Attempt.pRetry fn r).2 = r + 1 := by
    have h3 : (Attempt.pRetry fn r).2 = 0 + r + 1 := hn
    omega
  calc Attempt.pRetry fn r = ((Attempt.pRetry fn r).1, (Attempt.pRetry fn r).2) := rfl
    _ = (Except.error e, r + 1) := by rw [h1, h2]

/-- On an operation failing with `e` every time, the collaborator makes
`r + 1` invocations and rejects with `e`. -/
theorem pRetryGo_alwaysFail (e : JSVal) :
    ∀ (r idx : Nat), Attempt.pRetryGo (alwaysFail e) r idx = (Except.error e, idx + r + 1) := by
  intro r
  induction r with
  | zero => intro idx; rfl
  | succ n ih =>
    intro idx
    show Attempt.pRetryGo (alwaysFail e) n (idx + 1) = _
    rw [ih (idx + 1)]
    congr 1
    omega

/-- `pRetry` on an always-failing operation. -/
theorem pRetry_alwaysFail (e : JSVal) (r : Nat) :
    Attempt.pRetry (alwaysFail e) r = (Except.error e, r + 1) := by
  have h := pRetryGo_alwaysFail e r 0
  simpa using h

/-- The coerced raw cause stored by `handleError` always serializes as the
empty JSON object: either it is (or was coerced to) an Error, whose own
fields are not enumerable. -/
theorem serialize_coerced (e : JSVal) :
    serialize (if instanceofError e then e else JSVal.vError (jsToString e))
      = some (JVal.jObj []) := by
  cases hi : instanceofError e with
  | true =>
    obtain ⟨m, rfl⟩ := instanceofError_inv hi
    rfl
  | false => rfl

end Lemmas

/-- C2: with `client: true`, for any thrown or rejected value `e` whose
normalized error's `toClient()` returns `c`, the synchronous `try` path,
the asynchronous `try` path and `retry` all produce a failure outcome
whose failure payload is exactly the one-key object `\x7bclient: c\x7d`:
the outcome is fully determined by `c`, so neither the caught value nor
the normalized error appears anywhere in it. -/
theorem C2_client_projection (deps : Deps) (e c : JSVal) (ropts : RetryOptions)
    (hclient : ropts.client = some true)
    (htc : (deps.normalizeError e ropts.errors).toClient = some (Except.ok c)) :
    (Attempt.tryRun deps (Attempt.FnBehavior.thr e) ropts.toTryOptions).1
      = Attempt.TryResult.sync (Except.ok (Attempt.error [("client", c)])) ∧
    (Attempt.tryRun deps (Attempt.FnBehavior.retPromise (Except.error e)) ropts.toTryOptions).1
      = Attempt.TryResult.async (Except.ok (Attempt.error [("client", c)])) ∧
    (Attempt.retry deps (alwaysFail e) ropts).1
      = Except.ok (Attempt.error [("client", c)]) := by
  have hc : ropts.toTryOptions.client.getD false = true := by rw [hclient]; rfl
  refine ⟨?_, ?_, ?_⟩
  · show Attempt.TryResult.sync (Attempt.handleError deps e ropts.toTryOptions).1 = _
    rw [handleError_client deps e ropts.toTryOptions c hc htc]
  · show Attempt.TryResult.async (Attempt.handleError deps e ropts.toTryOptions).1 = _
    rw [handleError_client deps e ropts.toTryOptions c hc htc]
  · rw [retry_fail deps (alwaysFail e) ropts e (ropts.tries.getD 3 + 1)
      (pRetry_alwaysFail e (ropts.tries.getD 3))]
    rw [handleError_client deps e ropts.toTryOptions c hc htc]

/-- C2 witness: the default normalizer on a thrown Error, in client mode,
yields exactly the three-field client projection under the single key
`client`. -/
theorem C2_client_projection_witness :
    (Attempt.tryRun defaultDeps (Attempt.FnBehavior.thr (JSVal.vError "test error"))
        { client := some true }).1
      = Attempt.TryResult.sync (Except.ok (Attempt.error
          [("client", JSVal.vObj
            [("message", JSVal.vStr "test error"),
             ("code", JSVal.vStr "UNKNOWN_ERROR"),
             ("userMessage", JSVal.vStr "An error occurred")])])) :=
  (C2_client_projection defaultDeps (JSVal.vError "test error")
    (JSVal.vObj
      [("message", JSVal.vStr "test error"),
       ("code", JSVal.vStr "UNKNOWN_ERROR"),
       ("userMessage", JSVal.vStr "An error occurred")])
    { client := some true } rfl rfl).1

/-- C6: in non-client mode, for any thrown (sync path) or rejected (async
path) value `e`, `try` yields an InternalFailure outcome whose payload has
exactly the two keys `error` (the raw cause, coerced to an Error whose
message is `String(e)` when `e` is not error-like) and `normalized` (the
normalizer's result), and no `client` key. -/
theorem C6_internal_payload (deps : Deps) (e : JSVal) (opts : TryOptions)
    (hclient : opts.client.getD false = false) :
    (Attempt.tryRun deps (Attempt.FnBehavior.thr e) opts).1
      = Attempt.TryResult.sync (Except.ok (Attempt.error
          [("error", if instanceofError e then e else JSVal.vError (jsToString e)),
           ("normalized", (deps.normalizeError e opts.errors).val)])) ∧
    (Attempt.tryRun deps (Attempt.FnBehavior.retPromise (Except.error e)) opts).1
      = Attempt.TryResult.async (Except.ok (Attempt.error
          [("error", if instanceofError e then e else JSVal.vError (jsToString e)),
           ("normalized", (deps.normalizeError e opts.errors).val)])) := by
  constructor
  · show Attempt.TryResult.sync (Attempt.handleError deps e opts).1 = _
    rw [handleError_nonclient deps e opts hclient]
  · show Attempt.TryResult.async (Attempt.handleError deps e opts).1 = _
    rw [handleError_nonclient deps e opts hclient]

/-- C6 witness: throwing the non-error value `"plain string"` produces an
InternalFailure whose raw-cause field is an Error with message
`"plain string"`. -/
theorem C6_internal_payload_witness :
    (Attempt.tryRun defaultDeps (Attempt.FnBehavior.thr (JSVal.vStr "plain string")) {}).1
      = Attempt.TryResult.sync (Except.ok (Attempt.error
          [("error", JSVal.vError "plain string"),
           ("normalized", (defaultNormalizer (JSVal.vStr "plain string")).val)])) :=
  (C6_internal_payload defaultDeps (JSVal.vStr "plain string") {} rfl).1

/-- C7: for every failure handled by `try` (sync or async path) or
`retry`, the trace is exactly: first the normalizer with the original raw
caught value and the `when` auxiliary tag exactly when `errors` was
supplied, then — if and only if `report` is not `false` — the logger
followed by the reporter, each with the same original caught value. -/
theorem C7_pipeline_order (deps : Deps) (L : LoggerShape) (e : JSVal)
    (opts : TryOptions) (ropts : RetryOptions)
    (hlog : deps.logger = some L) (hrep : deps.reporter = true) :
    (Attempt.tryRun deps (Attempt.FnBehavior.thr e) opts).2
      = Event.normCall e opts.errors ::
        (if opts.report.getD true then [Event.logCall e, Event.reportCall e] else []) ∧
    (Attempt.tryRun deps (Attempt.FnBehavior.retPromise (Except.error e)) opts).2
      = Event.normCall e opts.errors ::
        (if opts.report.getD true then [Event.logCall e, Event.reportCall e] else []) ∧
    (Attempt.retry deps (alwaysFail e) ropts).2.2
      = Event.normCall e ropts.errors ::
        (if ropts.report.getD true then [Event.logCall e, Event.reportCall e] else []) := by
  refine ⟨?_, ?_, ?_⟩
  · show (Attempt.handleError deps e opts).2 = _
    rw [handleError_events]
    unfold pipelineEvents
    simp [hlog, hrep]
  · show (Attempt.handleError deps e opts).2 = _
    rw [handleError_events]
    unfold pipelineEvents
    simp [hlog, hrep]
  · rw [retry_fail deps (alwaysFail e) ropts e (ropts.tries.getD 3 + 1)
      (pRetry_alwaysFail e (ropts.tries.getD 3))]
    show (Attempt.handleError deps e ropts.toTryOptions).2 = _
    rw [handleError_events]
    unfold pipelineEvents
    simp [hlog, hrep]

/-- C7 witness: with logger and reporter supplied and default options, a
synchronous throw traces normalizer, then logger, then reporter, each with
the raw thrown value. -/
theorem C7_pipeline_order_witness :
    (Attempt.tryRun fullDeps (Attempt.FnBehavior.thr (JSVal.vNum 7)) {}).2
      = [Event.normCall (JSVal.vNum 7) none, Event.logCall (JSVal.vNum 7),
         Event.reportCall (JSVal.vNum 7)] :=
  (C7_pipeline_order fullDeps LoggerShape.funcForm (JSVal.vNum 7) {} {} rfl rfl).1

/-- C5: shape symmetry of `try`.  (1) An operation returning a plain value
`v` — including `null` and `undefined` — yields, synchronously and with no
pipeline side effects, the Success outcome wrapping `v`.  (2) An operation
returning a Promise yields a Promise, and its settled outcome and trace
are exactly those the synchronous counterpart (returning or throwing the
same value) would produce.  (3) Whether a deferred handle is returned is
decided solely by the run-time `instanceof Promise` test on the
operation's return value. -/
theorem C5_shape_symmetry (deps : Deps) (v : JSVal) (s : Except JSVal JSVal)
    (fb : Attempt.FnBehavior) (opts : TryOptions) :
    Attempt.tryRun deps (Attempt.FnBehavior.ret v) opts
      = (Attempt.TryResult.sync (Except.ok (Attempt.ok v)), []) ∧
    (∃ r evs, Attempt.tryRun deps (Attempt.FnBehavior.retPromise s) opts
        = (Attempt.TryResult.async r, evs) ∧
      Attempt.tryRun deps (syncOf s) opts = (Attempt.TryResult.sync r, evs)) ∧
    (Attempt.tryRun deps fb opts).1.isAsync = fb.isPromiseReturn := by
  refine ⟨rfl, ?_, ?_⟩
  · cases s with
    | ok d => exact ⟨Except.ok (Attempt.ok d), [], rfl, rfl⟩
    | error e =>
      exact ⟨(Attempt.handleError deps e opts).1, (Attempt.handleError deps e opts).2, rfl, rfl⟩
  · cases fb with
    | ret v2 => rfl
    | thr e => rfl
    | retPromise s2 => cases s2 <;> rfl

/-- C8: `try` detects a deferred result solely via `instanceof Promise`,
so an operation returning a non-Promise thenable gets a synchronous
Success outcome whose `data` is the unawaited thenable itself — even when
that thenable later rejects — and no failure-pipeline event (normalizer,
logger, reporter) ever fires for it. -/
theorem C8_thenable_not_awaited (deps : Deps) (rejects : Bool) (v : JSVal)
    (opts : TryOptions) :
    Attempt.tryRun deps (Attempt.FnBehavior.ret (JSVal.vThenable rejects v)) opts
      = (Attempt.TryResult.sync (Except.ok (Attempt.ok (JSVal.vThenable rejects v))), []) := rfl

/-- C10: every outcome object built by `ok`, `error`, `try` or `retry`
has exactly the three keys `ok`, `error`, `data`; on success the `error`
field is present and `undefined`, on failure the `data` field is present
and `undefined`. -/
theorem C10_outcome_shape (deps : Deps) (v : JSVal) (info : JSObj)
    (fb : Attempt.FnBehavior) (opts : TryOptions)
    (fn : Nat → Except JSVal JSVal) (ropts : RetryOptions) :
    outcomeWF (Attempt.ok v) = true ∧
    outcomeWF (Attempt.error info) = true ∧
    tryResultWF (Attempt.tryRun deps fb opts).1 = true ∧
    exceptWF (Attempt.retry deps fn ropts).1 = true := by
  refine ⟨rfl, rfl, ?_, ?_⟩
  · cases fb with
    | ret v2 => rfl
    | thr e => exact handleError_wf deps e opts
    | retPromise s2 =>
      cases s2 with
      | ok d => rfl
      | error e => exact handleError_wf deps e opts
  · cases hp : Attempt.pRetry fn (ropts.tries.getD 3) with
    | mk r n =>
      cases r with
      | ok v2 => rw [retry_ok deps fn ropts v2 n hp]; rfl
      | error e =>
        rw [retry_fail deps fn ropts e n hp]
        exact handleError_wf deps e ropts.toTryOptions

/-- C1 counterexample: the claim fails as stated.  `noClientDeps` has a
total normalizer, no logger and no reporter — so none of the
caller-supplied normalizer, logger, reporter raises — yet a `try` call
over a synchronously throwing operation with `client: true` itself raises
(the unguarded `normalized.toClient()` call throws a TypeError), instead
of returning an Outcome. -/
theorem C1_counterexample :
    (Attempt.tryRun noClientDeps (Attempt.FnBehavior.thr (JSVal.vStr "boom"))
        { client := some true }).1
      = Attempt.TryResult.sync
          (Except.error (JSVal.vError "normalized.toClient is not a function")) ∧
    (Attempt.tryRun noClientDeps (Attempt.FnBehavior.thr (JSVal.vStr "boom"))
        { client := some true }).1.settled = false :=
  ⟨rfl, rfl⟩

/-- C1 (amended): for every operation and every thrown or rejected value,
`try` and `retry` never raise and never leave a failure unresolved — a
synchronous throw yields an Outcome returned directly and an asynchronous
rejection a deferred handle that resolves (never rejects) to an Outcome —
under the precondition that the caller-supplied normalizer, logger and
reporter do not themselves raise AND that, whenever `client` is true, the
normalizer's results expose a callable `toClient` projection that returns
without raising.  (In this embedding the normalizer, logger and reporter
are total by construction.) -/
theorem C1_never_raises (deps : Deps) (fb : Attempt.FnBehavior) (opts : TryOptions)
    (fn : Nat → Except JSVal JSVal) (ropts : RetryOptions)
    (h1 : opts.client.getD false = true → toClientTotal deps)
    (h2 : ropts.client.getD false = true → toClientTotal deps) :
    (Attempt.tryRun deps fb opts).1.settled = true ∧
    resolves (Attempt.retry deps fn ropts).1 = true := by
  constructor
  · cases fb with
    | ret v => rfl
    | thr e =>
      obtain ⟨obj, hobj⟩ := handleError_ok deps e opts (fun hc => h1 hc e opts.errors)
      show ((Attempt.TryResult.sync (Attempt.handleError deps e opts).1)).settled = true
      rw [hobj]
      rfl
    | retPromise s =>
      cases s with
      | ok d => rfl
      | error e =>
        obtain ⟨obj, hobj⟩ := handleError_ok deps e opts (fun hc => h1 hc e opts.errors)
        show ((Attempt.TryResult.async (Attempt.handleError deps e opts).1)).settled = true
        rw [hobj]
        rfl
  · cases hp : Attempt.pRetry fn (ropts.tries.getD 3) with
    | mk r n =>
      cases r with
      | ok v => rw [retry_ok deps fn ropts v n hp]; rfl
      | error e =>
        obtain ⟨obj, hobj⟩ := handleError_ok deps e ropts.toTryOptions
          (fun hc => h2 hc e ropts.errors)
        rw [retry_fail deps fn ropts e n hp]
        show resolves (Attempt.handleError deps e ropts.toTryOptions).1 = true
        rw [hobj]
        rfl

/-- C1 witness: with the default normalizer (whose `toClient` always
returns), a client-mode `try` over a throwing operation settles to an
Outcome without raising. -/
theorem C1_never_raises_witness :
    (Attempt.tryRun defaultDeps (Attempt.FnBehavior.thr (JSVal.vError "x"))
        { client := some true }).1.settled = true :=
  (C1_never_raises defaultDeps (Attempt.FnBehavior.thr (JSVal.vError "x"))
    { client := some true } (alwaysFail (JSVal.vError "x")) {}
    (fun _ => fun _ _ => ⟨_, rfl⟩) (fun _ => fun _ _ => ⟨_, rfl⟩)).1

/-- C9: `handleError` calls `toClient()` on the normalizer's result with
no guard.  With a normalizer whose result has no callable `toClient`
(`noClientDeps`) or whose `toClient` throws (`throwingClientDeps`), a
synchronous throwing operation makes `try` itself raise, and the
asynchronous `try` path and `retry` yield a rejecting Promise, instead of
returning an Outcome. -/
theorem C9_unguarded_toClient :
    (Attempt.tryRun noClientDeps (Attempt.FnBehavior.thr (JSVal.vStr "x"))
        { client := some true }).1
      = Attempt.TryResult.sync
          (Except.error (JSVal.vError "normalized.toClient is not a function")) ∧
    (Attempt.tryRun throwingClientDeps (Attempt.FnBehavior.thr (JSVal.vStr "x"))
        { client := some true }).1
      = Attempt.TryResult.sync (Except.error (JSVal.vError "toClient boom")) ∧
    (Attempt.tryRun noClientDeps
        (Attempt.FnBehavior.retPromise (Except.error (JSVal.vStr "x")))
        { client := some true }).1
      = Attempt.TryResult.async
          (Except.error (JSVal.vError "normalized.toClient is not a function")) ∧
    (Attempt.retry noClientDeps (alwaysFail (JSVal.vStr "x")) { client := some true }).1
      = Except.error (JSVal.vError "normalized.toClient is not a function") :=
  ⟨rfl, rfl, rfl, rfl⟩

/-- C3: with `tries = N`, `retry` invokes the operation at most `N + 1`
times; if the operation fails on every invocation the count is exactly
`N + 1` and the final outcome is a failure; `tries = 0` invokes exactly
once; omitted `tries` defaults to 3, so at most 4 invocations. -/
theorem C3_retry_counts (deps : Deps) (fn : Nat → Except JSVal JSVal)
    (ropts : RetryOptions) (N : Nat) :
    (ropts.tries = some N →
      (Attempt.retry deps fn ropts).2.1 ≤ N + 1 ∧
      (allAttemptsFail fn →
        (Attempt.retry deps fn ropts).2.1 = N + 1 ∧
        isSuccessOutcome (Attempt.retry deps fn ropts).1 = false)) ∧
    (ropts.tries = some 0 → (Attempt.retry deps fn ropts).2.1 = 1) ∧
    (ropts.tries = none → (Attempt.retry deps fn ropts).2.1 ≤ 4) := by
  refine ⟨?_, ?_, ?_⟩
  · intro hN
    have hcount : (Attempt.retry deps fn ropts).2.1 = (Attempt.pRetry fn N).2 := by
      rw [retry_count, hN]
      rfl
    constructor
    · rw [hcount]; exact pRetry_count_le fn N
    · intro hall
      obtain ⟨e, hp⟩ := pRetry_allfail fn hall N
      have hp3 : Attempt.pRetry fn (ropts.tries.getD 3) = (Except.error e, N + 1) := by
        rw [hN]; exact hp
      constructor
      · rw [hcount, hp]
      · rw [retry_fail deps fn ropts e (N + 1) hp3]
        exact handleError_not_success deps e ropts.toTryOptions
  · intro h0
    rw [retry_count, h0]
    rfl
  · intro hnone
    rw [retry_count, hnone]
    exact pRetry_count_le fn 3

/-- C3 witness: an operation failing on every invocation with `tries: 2`
is invoked exactly 3 times and the final outcome is a failure. -/
theorem C3_retry_counts_witness :
    (Attempt.retry defaultDeps (alwaysFail (JSVal.vError "always fails"))
        { tries := some 2 }).2.1 = 2 + 1 ∧
    isSuccessOutcome (Attempt.retry defaultDeps (alwaysFail (JSVal.vError "always fails"))
        { tries := some 2 }).1 = false :=
  ((C3_retry_counts defaultDeps (alwaysFail (JSVal.vError "always fails"))
      { tries := some 2 } 2).1 rfl).2
    (fun _ => ⟨JSVal.vError "always fails", rfl⟩)

/-- C4 counterexample: the claim fails as stated.  Two distinct failure
outcomes built by the `error` constructor, differing only in the raw-cause
Error's message, have identical JSON serializations (an Error's own fields
are not enumerable, so it serializes as the empty object): field contents
of the failure payload are NOT preserved exactly through
serialization/deserialization. -/
theorem C4_counterexample :
    serializeFields (Attempt.error
        [("error", JSVal.vError "boom"), ("normalized", JSVal.vNull)])
      = serializeFields (Attempt.error
        [("error", JSVal.vError "zap"), ("normalized", JSVal.vNull)]) ∧
    Attempt.error [("error", JSVal.vError "boom"), ("normalized", JSVal.vNull)]
      ≠ Attempt.error [("error", JSVal.vError "zap"), ("normalized", JSVal.vNull)] := by
  constructor
  · rfl
  · intro h
    simp [Attempt.error] at h

/-- C4 (amended): serializing an outcome to JSON and deserializing it
preserves the discriminant and the failure payload's key-set (provided
the payload's field values serialize to defined JSON values, as the
pipeline's do), so InternalFailure (`error`, `normalized`) and
ClientFailure (`client`) remain distinguishable by key-set alone, and a
Success outcome's failure slot serializes as absent — never as an empty
object; field contents, however, are preserved only up to JSON
representability (the raw-cause Error serializes as an empty object). -/
theorem C4_serialization (deps : Deps) (v e : JSVal) (opts : TryOptions)
    (hn : ∀ raw t, (serialize (deps.normalizeError raw t).val).isSome = true)
    (hc : ∀ raw t c, (deps.normalizeError raw t).toClient = some (Except.ok c) →
        (serialize c).isSome = true) :
    (lookupKey "ok" (serializeFields (Attempt.ok v)) = some (JVal.jBool true) ∧
     lookupKey "error" (serializeFields (Attempt.ok v)) = none) ∧
    (∀ obj, (Attempt.handleError deps e opts).1 = Except.ok obj →
      lookupKey "ok" (serializeFields obj) = some (JVal.jBool false) ∧
      ∃ jp, lookupKey "error" (serializeFields obj) = some (JVal.jObj jp) ∧
        keysOf jp = (if opts.client.getD false then ["client"]
          else ["error", "normalized"])) := by
  constructor
  · constructor
    · rfl
    · cases hv : serialize v with
      | none => simp [Attempt.ok, serializeFields, serialize, hv, lookupKey]
      | some j => simp [Attempt.ok, serializeFields, serialize, hv, lookupKey]
  · intro obj hobj
    cases hcl : opts.client.getD false with
    | false =>
      rw [handleError_nonclient deps e opts hcl] at hobj
      injection hobj with hobj2
      subst hobj2
      obtain ⟨j2, hj2⟩ := Option.isSome_iff_exists.mp (hn e opts.errors)
      constructor
      · simp [Attempt.error, serializeFields, serialize, lookupKey]
      · refine ⟨[("error", JVal.jObj []), ("normalized", j2)], ?_, ?_⟩
        · simp [Attempt.error, serializeFields, serialize, serialize_coerced, hj2, lookupKey]
        · simp [keysOf, hcl]
    | true =>
      cases htc : (deps.normalizeError e opts.errors).toClient with
      | none =>
        exfalso
        unfold Attempt.handleError at hobj
        simp [hcl, htc] at hobj
      | some r =>
        cases r with
        | error e2 =>
          exfalso
          unfold Attempt.handleError at hobj
          simp [hcl, htc] at hobj
        | ok c =>
          rw [handleError_client deps e opts c hcl htc] at hobj
          injection hobj with hobj2
          subst hobj2
          obtain ⟨jc, hjc⟩ := Option.isSome_iff_exists.mp (hc e opts.errors c htc)
          constructor
          · simp [Attempt.error, serializeFields, serialize, lookupKey]
          · refine ⟨[("client", jc)], ?_, ?_⟩
            · simp [Attempt.error, serializeFields, serialize, hjc, lookupKey]
            · simp [keysOf, hcl]

/-- C4 witness: a Success outcome's serialization carries the `true`
discriminant and no `error` key at all. -/
theorem C4_serialization_witness :
    lookupKey "ok" (serializeFields (Attempt.ok (JSVal.vNum 42))) = some (JVal.jBool true) ∧
    lookupKey "error" (serializeFields (Attempt.ok (JSVal.vNum 42))) = none :=
  (C4_serialization defaultDeps (JSVal.vNum 42) (JSVal.vError "boom") {}
    (fun _ _ => rfl)
    (fun raw t c h => by
      injection h with h1
      injection h1 with h2
      rw [← h2]
      rfl)).1

end AttemptTS
